import Mathlib

/-!
Verification of the QoS container manager (`qos_container_manager.go`) and the
admission plugin initializer (`pkg/kubeapiserver/admission/initializer.go`).

The Go code is shallowly embedded: pods, cgroup configurations and the cgroup
driver become plain Lean data; the driver's `Update`, `Exists`, `Create` and
`GetResourceStats` operations are modelled as pure functions supplied by the
environment (a failing call returns `none` / `false`); `int64` quantities are
modelled as `Int`, with Go's truncating division written `Int.tdiv`.
-/

/-- The three pod QoS classes (`v1.PodQOSClass`). -/
inductive PodQOSClass
  | guaranteed
  | burstable
  | bestEffort
  deriving DecidableEq, Repr

/-- The resource requests of one pod, as returned by `v1.PodRequestsAndLimits`:
a resource absent from the request list is `none`. -/
structure PodRequests where
  cpuMilli : Option Int
  memory : Option Int
  deriving DecidableEq, Repr

/-- One active pod: its QoS class (`qos.GetPodQOS`) and its aggregated resource
requests.  `requests = none` models the case where `v1.PodRequestsAndLimits`
returns an error (the requests cannot be determined). -/
structure Pod where
  qosClass : PodQOSClass
  requests : Option PodRequests
  deriving DecidableEq, Repr

/-- `ResourceConfig`: optional CPU-share and memory-limit targets (the other
fields of the Go struct are never touched by this code). -/
structure ResourceConfig where
  cpuShares : Option Int := none
  memory : Option Int := none
  deriving DecidableEq, Repr

/-- `CgroupConfig`: a cgroup name paired with the resource parameters to apply. -/
structure CgroupConfig where
  name : String
  resourceParameters : ResourceConfig
  deriving DecidableEq, Repr

/-- The two QoS classes that have a managed cgroup config in `UpdateCgroups`
(the `qosConfigs` map has exactly the keys Burstable and BestEffort). -/
inductive ManagedQOS
  | burstable
  | bestEffort
  deriving DecidableEq, Repr

/-- The `qosConfigs` map built by `UpdateCgroups`: one `CgroupConfig` per
managed QoS class. -/
structure QOSConfigs where
  burstable : CgroupConfig
  bestEffort : CgroupConfig
  deriving DecidableEq, Repr

/-- Map lookup `configs[qosClass]`. -/
def QOSConfigs.get (configs : QOSConfigs) : ManagedQOS → CgroupConfig
  | .burstable => configs.burstable
  | .bestEffort => configs.bestEffort

/-- Map update `configs[qosClass] = c` (in Go the entries are pointers, so the
in-place mutation of an entry is modelled by functional update). -/
def QOSConfigs.set (configs : QOSConfigs) : ManagedQOS → CgroupConfig → QOSConfigs
  | .burstable, c => { configs with burstable := c }
  | .bestEffort, c => { configs with bestEffort := c }

/-- Setting the CPU-share field of a config (`ResourceParameters.CpuShares = &v`). -/
def CgroupConfig.withCpuShares (c : CgroupConfig) (v : Int) : CgroupConfig :=
  { c with resourceParameters := { c.resourceParameters with cpuShares := some v } }

/-- Setting the memory-limit field of a config (`ResourceParameters.Memory = &v`). -/
def CgroupConfig.withMemory (c : CgroupConfig) (v : Int) : CgroupConfig :=
  { c with resourceParameters := { c.resourceParameters with memory := some v } }

/-- The pod-summation loop of `setMemoryReserve`: walks the active pods
accumulating the Guaranteed and Burstable memory-request sums, skipping
BestEffort pods; returns `none` as soon as one pod's requests cannot be
determined (the Go function returns early there). -/
def sumQOSMemoryRequests : List Pod → Int → Int → Option (Int × Int)
  | [], g, b => some (g, b)
  | pod :: rest, g, b =>
    if pod.qosClass = .bestEffort then
      sumQOSMemoryRequests rest g b
    else
      match pod.requests with
      | none => none
      | some req =>
        let podMemoryRequest : Int :=
          match req.memory with
          | some request => request
          | none => 0
        match pod.qosClass with
        | .guaranteed => sumQOSMemoryRequests rest (g + podMemoryRequest) b
        | _ => sumQOSMemoryRequests rest g (b + podMemoryRequest)

/-- The Burstable memory limit of `setMemoryReserve`:
`allocatable - (qosMemoryRequests[Guaranteed] * percentReserve / 100)` with
Go's `int64` division, which truncates toward zero (`Int.tdiv`). -/
def burstableMemoryLimit (allocatable guaranteedRequests percentReserve : Int) : Int :=
  allocatable - Int.tdiv (guaranteedRequests * percentReserve) 100

/-- The BestEffort memory limit of `setMemoryReserve`:
`burstableLimit - (qosMemoryRequests[Burstable] * percentReserve / 100)`. -/
def bestEffortMemoryLimit (allocatable guaranteedRequests burstableRequests percentReserve : Int) : Int :=
  burstableMemoryLimit allocatable guaranteedRequests percentReserve -
    Int.tdiv (burstableRequests * percentReserve) 100

/-- `setMemoryReserve`: sums per-class memory requests, reads node-allocatable
memory (`none` models a list without a memory entry), and on success writes the
Burstable and BestEffort memory limits into the configs.  Every early `return`
of the Go function leaves `configs` unchanged. -/
def setMemoryReserve (pods : List Pod) (allocatableMemory : Option Int)
    (configs : QOSConfigs) (percentReserve : Int) : QOSConfigs :=
  match sumQOSMemoryRequests pods 0 0 with
  | none => configs
  | some (guaranteedRequests, burstableRequests) =>
    match allocatableMemory with
    | none => configs
    | some allocatable =>
      if allocatable = 0 then configs
      else
        let burstableLimit := burstableMemoryLimit allocatable guaranteedRequests percentReserve
        let bestEffortLimit :=
          bestEffortMemoryLimit allocatable guaranteedRequests burstableRequests percentReserve
        let configs := configs.set .burstable ((configs.get .burstable).withMemory burstableLimit)
        configs.set .bestEffort ((configs.get .bestEffort).withMemory bestEffortLimit)

/-- The memory request one pod contributes to its class sum: 0 when the memory
resource is absent from its request list. -/
def podMemoryContribution (pod : Pod) : Int :=
  match pod.requests with
  | some req =>
    match req.memory with
    | some request => request
    | none => 0
  | none => 0

/-- The total memory requests of the active pods of one QoS class. -/
def classMemoryRequestSum (q : PodQOSClass) (pods : List Pod) : Int :=
  ((pods.filter (fun pod => pod.qosClass = q)).map podMemoryContribution).sum

theorem sumQOSMemoryRequests_eq (pods : List Pod) :
    ∀ g b : Int,
      (∀ pod ∈ pods, pod.qosClass ≠ .bestEffort → pod.requests.isSome) →
      sumQOSMemoryRequests pods g b =
        some (g + classMemoryRequestSum .guaranteed pods,
              b + classMemoryRequestSum .burstable pods) := by
  induction pods with
  | nil => intro g b _; simp [sumQOSMemoryRequests, classMemoryRequestSum]
  | cons pod rest ih =>
    intro g b h
    have hrest : ∀ p ∈ rest, p.qosClass ≠ .bestEffort → p.requests.isSome := by
      intro p hp; exact h p (List.mem_cons_of_mem _ hp)
    have hsum : ∀ q : PodQOSClass,
        classMemoryRequestSum q (pod :: rest) =
          (if pod.qosClass = q then podMemoryContribution pod else 0) +
            classMemoryRequestSum q rest := by
      intro q
      by_cases hq : pod.qosClass = q <;>
        simp [classMemoryRequestSum, List.filter_cons, hq]
    cases hclass : pod.qosClass with
    | bestEffort =>
      rw [sumQOSMemoryRequests, if_pos hclass, ih g b hrest]
      simp [hsum, hclass]
    | guaranteed =>
      have hreq := h pod (List.mem_cons_self _ _) (by rw [hclass]; intro hc; cases hc)
      cases hr : pod.requests with
      | none => rw [hr] at hreq; cases hreq
      | some req =>
        have hpc : podMemoryContribution pod =
            (match req.memory with | some request => request | none => 0) := by
          simp [podMemoryContribution, hr]
        simp [sumQOSMemoryRequests, hclass, hr, ih _ _ hrest, hsum, hpc]
        ring
    | burstable =>
      have hreq := h pod (List.mem_cons_self _ _) (by rw [hclass]; intro hc; cases hc)
      cases hr : pod.requests with
      | none => rw [hr] at hreq; cases hreq
      | some req =>
        have hpc : podMemoryContribution pod =
            (match req.memory with | some request => request | none => 0) := by
          simp [podMemoryContribution, hr]
        simp [sumQOSMemoryRequests, hclass, hr, ih _ _ hrest, hsum, hpc]
        ring

/-- Modelled from the spec: the platform-defined minimum CPU share value.  The
source refers to the constant `MinShares`, declared elsewhere in the
repository; the comment in `setCPUCgroupConfig` fixes its value
("make sure best effort is always 2 shares"). -/
def MinShares : Int := 2

/-- The pod loop of `setCPUCgroupConfig`: sums the CPU requests (milli-units)
of the Burstable pods, skipping pods of every other class; a Burstable pod
whose requests cannot be determined makes the whole computation fail
(`return err`).  A Burstable pod with no CPU entry contributes nothing. -/
def sumBurstableCPURequests : List Pod → Int → Except Unit Int
  | [], acc => .ok acc
  | pod :: rest, acc =>
    if pod.qosClass ≠ .burstable then
      sumBurstableCPURequests rest acc
    else
      match pod.requests with
      | none => .error ()
      | some req =>
        match req.cpuMilli with
        | some request => sumBurstableCPURequests rest (acc + request)
        | none => sumBurstableCPURequests rest acc

/-- `setCPUCgroupConfig`: pins the BestEffort CPU shares to `MinShares` and
sets the Burstable shares to the converted Burstable CPU-request sum, clamped
from below by `MinShares`.  The milli-CPU-to-shares conversion
(`MilliCPUToShares`, declared elsewhere in the repository) is passed in as the
function `conv`. -/
def setCPUCgroupConfig (conv : Int → Int) (pods : List Pod) (configs : QOSConfigs) :
    Except Unit QOSConfigs :=
  match sumBurstableCPURequests pods 0 with
  | .error e => .error e
  | .ok burstablePodCPURequest =>
    let bestEffortCPUShares := MinShares
    let configs := configs.set .bestEffort ((configs.get .bestEffort).withCpuShares bestEffortCPUShares)
    let burstableCPUShares :=
      if conv burstablePodCPURequest < MinShares then MinShares
      else conv burstablePodCPURequest
    .ok (configs.set .burstable ((configs.get .burstable).withCpuShares burstableCPUShares))

/-- The CPU milli-request one pod contributes to the Burstable sum: 0 when the
CPU resource is absent from its request list. -/
def podCPUContribution (pod : Pod) : Int :=
  match pod.requests with
  | some req =>
    match req.cpuMilli with
    | some request => request
    | none => 0
  | none => 0

/-- The total CPU milli-requests of the active Burstable pods. -/
def burstableCPURequestSum (pods : List Pod) : Int :=
  ((pods.filter (fun pod => pod.qosClass = .burstable)).map podCPUContribution).sum

theorem sumBurstableCPURequests_eq (pods : List Pod) :
    ∀ acc : Int,
      (∀ pod ∈ pods, pod.qosClass = .burstable → pod.requests.isSome) →
      sumBurstableCPURequests pods acc = .ok (acc + burstableCPURequestSum pods) := by
  induction pods with
  | nil => intro acc _; simp [sumBurstableCPURequests, burstableCPURequestSum]
  | cons pod rest ih =>
    intro acc h
    have hrest : ∀ p ∈ rest, p.qosClass = .burstable → p.requests.isSome := by
      intro p hp; exact h p (List.mem_cons_of_mem _ hp)
    have hsum : burstableCPURequestSum (pod :: rest) =
        (if pod.qosClass = .burstable then podCPUContribution pod else 0) +
          burstableCPURequestSum rest := by
      by_cases hq : pod.qosClass = .burstable <;>
        simp [burstableCPURequestSum, List.filter_cons, hq]
    by_cases hclass : pod.qosClass = .burstable
    · have hreq := h pod (List.mem_cons_self _ _) hclass
      cases hr : pod.requests with
      | none => rw [hr] at hreq; cases hreq
      | some req =>
        have hpc : podCPUContribution pod =
            (match req.cpuMilli with | some request => request | none => 0) := by
          simp [podCPUContribution, hr]
        cases hm : req.cpuMilli with
        | none => simp [sumBurstableCPURequests, hclass, hr, hm, ih _ hrest, hsum, hpc]
        | some request =>
          simp [sumBurstableCPURequests, hclass, hr, hm, ih _ hrest, hsum, hpc]
          ring
    · simp [sumBurstableCPURequests, hclass, ih _ hrest, hsum]

theorem sumBurstableCPURequests_error (pods : List Pod) :
    ∀ acc : Int,
      (∃ pod ∈ pods, pod.qosClass = .burstable ∧ pod.requests = none) →
      sumBurstableCPURequests pods acc = .error () := by
  induction pods with
  | nil => intro acc h; simp at h
  | cons pod rest ih =>
    intro acc h
    by_cases hclass : pod.qosClass = .burstable
    · cases hr : pod.requests with
      | none => simp [sumBurstableCPURequests, hclass, hr]
      | some req =>
        have hrest : ∃ p ∈ rest, p.qosClass = .burstable ∧ p.requests = none := by
          rcases h with ⟨p, hp, hpb, hpn⟩
          rcases List.mem_cons.mp hp with heq | hmem
          · subst heq; rw [hr] at hpn; cases hpn
          · exact ⟨p, hmem, hpb, hpn⟩
        cases hm : req.cpuMilli <;>
          simp [sumBurstableCPURequests, hclass, hr, hm, ih _ hrest]
    · have hrest : ∃ p ∈ rest, p.qosClass = .burstable ∧ p.requests = none := by
        rcases h with ⟨p, hp, hpb, hpn⟩
        rcases List.mem_cons.mp hp with heq | hmem
        · subst heq; exact absurd hpb hclass
        · exact ⟨p, hmem, hpb, hpn⟩
      simp [sumBurstableCPURequests, hclass, ih _ hrest]

/-- The per-tier adjustment of `retrySetMemoryReserve`: when a memory target
was set and the observed usage exceeds it, the target becomes the usage;
otherwise the config is left as is. -/
def adjustMemoryToUsage (c : CgroupConfig) (usage : Int) : CgroupConfig :=
  match c.resourceParameters.memory with
  | some m => if usage > m then c.withMemory usage else c
  | none => c

/-- `retrySetMemoryReserve`: walks the configs map (`order` is the map
iteration order), reads each tier's memory usage via the cgroup driver
(`memoryUsage`, modelling `GetResourceStats`; `none` models an error), and
adjusts over-limit tiers.  On a stats error it returns immediately with the
configs accumulated so far; no error is reported.  `percentReserve` is passed
by the caller but unused, as in the source. -/
def retrySetMemoryReserve (memoryUsage : String → Option Int) :
    QOSConfigs → List ManagedQOS → Int → QOSConfigs
  | configs, [], _ => configs
  | configs, q :: rest, percentReserve =>
    match memoryUsage (configs.get q).name with
    | none => configs
    | some usage =>
      retrySetMemoryReserve memoryUsage
        (configs.set q (adjustMemoryToUsage (configs.get q) usage)) rest percentReserve

theorem QOSConfigs.get_set_self (configs : QOSConfigs) (q : ManagedQOS) (c : CgroupConfig) :
    (configs.set q c).get q = c := by
  cases q <;> rfl

theorem QOSConfigs.get_set_ne (configs : QOSConfigs) (q u : ManagedQOS) (c : CgroupConfig)
    (h : q ≠ u) : (configs.set q c).get u = configs.get u := by
  cases q <;> cases u <;> first | rfl | exact absurd rfl h

theorem adjustMemoryToUsage_name (c : CgroupConfig) (usage : Int) :
    (adjustMemoryToUsage c usage).name = c.name := by
  unfold adjustMemoryToUsage
  cases c.resourceParameters.memory with
  | none => rfl
  | some m =>
    by_cases h : usage > m <;> simp [h, CgroupConfig.withMemory]

/-- A tier that the retry loop never visits keeps its config, whatever the
stats outcomes. -/
theorem retrySetMemoryReserve_get_not_mem (memoryUsage : String → Option Int)
    (percentReserve : Int) :
    ∀ (order : List ManagedQOS) (configs : QOSConfigs) (u : ManagedQOS),
      u ∉ order →
      (retrySetMemoryReserve memoryUsage configs order percentReserve).get u = configs.get u := by
  intro order
  induction order with
  | nil => intro configs u _; rfl
  | cons q rest ih =>
    intro configs u hu
    have hqu : q ≠ u := fun h => hu (h ▸ List.mem_cons_self _ _)
    have hurest : u ∉ rest := fun h => hu (List.mem_cons_of_mem _ h)
    unfold retrySetMemoryReserve
    cases hm : memoryUsage (configs.get q).name with
    | none => rfl
    | some usage =>
      rw [ih _ u hurest, QOSConfigs.get_set_ne _ _ _ _ hqu]

/-- With the stats read succeeding on every visited tier and no tier visited
twice, each visited tier ends up adjusted from its own original config. -/
theorem retrySetMemoryReserve_get_mem (memoryUsage : String → Option Int)
    (percentReserve : Int) :
    ∀ (order : List ManagedQOS) (configs : QOSConfigs) (q : ManagedQOS) (usage : Int),
      order.Nodup → q ∈ order →
      (∀ u ∈ order, (memoryUsage (configs.get u).name).isSome) →
      memoryUsage (configs.get q).name = some usage →
      (retrySetMemoryReserve memoryUsage configs order percentReserve).get q =
        adjustMemoryToUsage (configs.get q) usage := by
  intro order
  induction order with
  | nil => intro configs q usage _ hq; cases hq
  | cons a rest ih =>
    intro configs q usage hnodup hq hall hsome
    have ha : (memoryUsage (configs.get a).name).isSome :=
      hall a (List.mem_cons_self _ _)
    cases hma : memoryUsage (configs.get a).name with
    | none => rw [hma] at ha; cases ha
    | some ua =>
      unfold retrySetMemoryReserve
      rw [hma]
      rcases List.mem_cons.mp hq with heq | hmem
      · subst heq
        have hnot : q ∉ rest := (List.nodup_cons.mp hnodup).1
        rw [retrySetMemoryReserve_get_not_mem _ _ _ _ _ hnot,
          QOSConfigs.get_set_self]
        rw [hma] at hsome
        cases hsome
        rfl
      · have haq : a ≠ q := by
          intro h; subst h; exact (List.nodup_cons.mp hnodup).1 hmem
        have hget : (configs.set a (adjustMemoryToUsage (configs.get a) ua)).get q =
            configs.get q := QOSConfigs.get_set_ne _ _ _ _ haq
        have hall2 : ∀ u ∈ rest,
            (memoryUsage ((configs.set a (adjustMemoryToUsage (configs.get a) ua)).get u).name).isSome := by
          intro u hu
          by_cases hau : a = u
          · subst hau
            rw [QOSConfigs.get_set_self, adjustMemoryToUsage_name]
            exact hall a (List.mem_cons_self _ _)
          · rw [QOSConfigs.get_set_ne _ _ _ _ hau]
            exact hall u (List.mem_cons_of_mem _ hu)
        rw [ih _ q usage (List.nodup_cons.mp hnodup).2 hmem hall2 (by rw [hget]; exact hsome),
          hget]

/-- When the stats read fails at tier `q` after succeeding on the tiers of
`pre`, the retry loop stops at `q`: every tier outside `pre` (in particular
`q` itself and every tier not yet visited) keeps its original config. -/
theorem retrySetMemoryReserve_early_return (memoryUsage : String → Option Int)
    (percentReserve : Int) :
    ∀ (pre : List ManagedQOS) (configs : QOSConfigs) (q : ManagedQOS) (post : List ManagedQOS)
      (u : ManagedQOS),
      (∀ v ∈ pre, (memoryUsage (configs.get v).name).isSome) →
      memoryUsage (configs.get q).name = none →
      u ∉ pre →
      (retrySetMemoryReserve memoryUsage configs (pre ++ q :: post) percentReserve).get u =
        configs.get u := by
  intro pre
  induction pre with
  | nil =>
    intro configs q post u _ hq _
    unfold retrySetMemoryReserve
    rw [List.nil_append]
    simp only [hq]
  | cons a pre' ih =>
    intro configs q post u hpre hq hu
    have ha : (memoryUsage (configs.get a).name).isSome :=
      hpre a (List.mem_cons_self _ _)
    cases hma : memoryUsage (configs.get a).name with
    | none => rw [hma] at ha; cases ha
    | some ua =>
      have hau : a ≠ u := fun h => hu (h ▸ List.mem_cons_self _ _)
      have hupre : u ∉ pre' := fun h => hu (List.mem_cons_of_mem _ h)
      have haq : a ≠ q := by
        intro h; subst h; rw [hma] at hq; cases hq
      have hgetq : (configs.set a (adjustMemoryToUsage (configs.get a) ua)).get q =
          configs.get q := QOSConfigs.get_set_ne _ _ _ _ haq
      have hpre2 : ∀ v ∈ pre',
          (memoryUsage ((configs.set a (adjustMemoryToUsage (configs.get a) ua)).get v).name).isSome := by
        intro v hv
        by_cases hav : a = v
        · subst hav
          rw [QOSConfigs.get_set_self, adjustMemoryToUsage_name]
          exact hpre a (List.mem_cons_self _ _)
        · rw [QOSConfigs.get_set_ne _ _ _ _ hav]
          exact hpre v (List.mem_cons_of_mem _ hv)
      rw [List.cons_append]
      unfold retrySetMemoryReserve
      rw [hma]
      rw [ih _ q post u hpre2 (by rw [hgetq]; exact hq) hupre,
        QOSConfigs.get_set_ne _ _ _ _ hau]

/-- The state a `qosContainerManagerImpl` reads during one reconciliation
pass: the active pods and node-allocatable memory (via the resource accessor
functions stored at `Start`), and the construction-time configuration — the
memory entry of the `qosReserved` map (`none` when memory is not in the map;
entries for other resource kinds are ignored by the `switch` statements) and
the tier cgroup names recorded in `qosContainersInfo`. -/
structure ManagerState where
  pods : List Pod
  allocatableMemory : Option Int
  qosReservedMemory : Option Int
  burstableName : String
  bestEffortName : String

/-- The cgroup driver operations one pass consumes: `Update` (the returned
`Bool` is success) and `GetResourceStats` (memory usage by cgroup name,
`none` models an error). -/
structure CgroupDriver where
  update : CgroupConfig → Bool
  memoryUsage : String → Option Int

/-- The fresh `qosConfigs` map built at the top of `UpdateCgroups`: one empty
`ResourceConfig` per managed tier. -/
def initialQOSConfigs (st : ManagerState) : QOSConfigs :=
  { burstable := { name := st.burstableName, resourceParameters := {} },
    bestEffort := { name := st.bestEffortName, resourceParameters := {} } }

/-- The error a pass surfaces: the CPU computation failed, or a cgroup write
failed in phase 2. -/
inductive PassError
  | cpuComputation
  | cgroupUpdate
  deriving DecidableEq, Repr

/-- The phase-2 write loop: applies each config in turn and stops at the first
failed write, which becomes the error of the pass.  Returns the trace of
attempted writes together with the outcome. -/
def phase2Apply (update : CgroupConfig → Bool) (configs : QOSConfigs) :
    List ManagedQOS → List CgroupConfig × Except PassError Unit
  | [] => ([], .ok ())
  | q :: rest =>
    let c := configs.get q
    if update c then
      let result := phase2Apply update configs rest
      (c :: result.1, result.2)
    else ([c], .error .cgroupUpdate)

/-- `UpdateCgroups`: one reconciliation pass.  `order` is the iteration order
of the two-key `qosConfigs` map, `conv` the milli-CPU-to-shares conversion.
Returns the trace of the driver `Update` calls attempted during the pass and
the pass outcome. -/
def UpdateCgroups (st : ManagerState) (d : CgroupDriver) (conv : Int → Int)
    (order : List ManagedQOS) : List CgroupConfig × Except PassError Unit :=
  let qosConfigs := initialQOSConfigs st
  match setCPUCgroupConfig conv st.pods qosConfigs with
  | .error _ => ([], .error .cpuComputation)
  | .ok qosConfigs =>
    let qosConfigs :=
      match st.qosReservedMemory with
      | some percentReserve => setMemoryReserve st.pods st.allocatableMemory qosConfigs percentReserve
      | none => qosConfigs
    let phase1 := order.map fun q => qosConfigs.get q
    let updateSuccess := (phase1.map d.update).all id
    if updateSuccess then (phase1, .ok ())
    else
      let qosConfigs :=
        match st.qosReservedMemory with
        | some percentReserve => retrySetMemoryReserve d.memoryUsage qosConfigs order percentReserve
        | none => qosConfigs
      let retried := phase2Apply d.update qosConfigs order
      (phase1 ++ retried.1, retried.2)

/-- The driver operations `Start` consumes: existence check, create and
update (the returned `Bool` of the latter two is success). -/
structure StartDriver where
  existsCgroup : String → Bool
  create : CgroupConfig → Bool
  update : CgroupConfig → Bool

/-- The error surfaced by `Start`: missing root cgroup, or a failed create or
update of a tier cgroup (the Go code wraps the driver error per tier). -/
inductive StartError
  | rootDoesNotExist
  | createFailed (q : ManagedQOS)
  | updateFailed (q : ManagedQOS)
  deriving DecidableEq, Repr

/-- A driver call recorded during `Start`. -/
inductive DriverOp
  | create (c : CgroupConfig)
  | update (c : CgroupConfig)
  deriving DecidableEq, Repr

/-- `QOSContainersInfo`: the tier-to-cgroup-path record populated by `Start`. -/
structure QOSContainersInfo where
  guaranteed : String := ""
  burstable : String := ""
  bestEffort : String := ""
  deriving DecidableEq, Repr

/-- The cgroup path segment of a managed QoS class (`string(qosClass)`). -/
def qosClassString : ManagedQOS → String
  | .burstable => "Burstable"
  | .bestEffort => "BestEffort"

/-- `path.Join(rootContainer, string(qosClass))`, modelled as slash
concatenation (the paths involved have no trailing slashes to clean). -/
def tierContainerName (rootContainer : String) (q : ManagedQOS) : String :=
  rootContainer ++ "/" ++ qosClassString q

/-- The initial `CgroupConfig` `Start` applies to a tier cgroup: an empty
`ResourceConfig`, except that BestEffort statically pins `MinShares`. -/
def tierStartConfig (rootContainer : String) (q : ManagedQOS) : CgroupConfig :=
  { name := tierContainerName rootContainer q,
    resourceParameters :=
      match q with
      | .bestEffort => { cpuShares := some MinShares }
      | .burstable => {} }

/-- One iteration of the `Start` loop over a QoS class: create the cgroup
when it does not exist, update it when it does; returns the driver call made
and the error, if any. -/
def startTier (d : StartDriver) (containerConfig : CgroupConfig) (q : ManagedQOS) :
    DriverOp × Option StartError :=
  if ¬ d.existsCgroup containerConfig.name then
    (.create containerConfig, if d.create containerConfig then none else some (.createFailed q))
  else
    (.update containerConfig, if d.update containerConfig then none else some (.updateFailed q))

/-- `Start`: fails when the root cgroup does not exist; otherwise runs the
`startTier` loop over `[Burstable, BestEffort]`, stopping at the first error,
and on success populates `qosContainersInfo`.  Returns the trace of the
create/update driver calls made along with the outcome. -/
def Start (d : StartDriver) (rootContainer : String) :
    List DriverOp × Except StartError QOSContainersInfo :=
  if ¬ d.existsCgroup rootContainer then ([], .error .rootDoesNotExist)
  else
    let opB := startTier d (tierStartConfig rootContainer .burstable) .burstable
    match opB.2 with
    | some e => ([opB.1], .error e)
    | none =>
      let opE := startTier d (tierStartConfig rootContainer .bestEffort) .bestEffort
      match opE.2 with
      | some e => ([opB.1, opE.1], .error e)
      | none =>
        ([opB.1, opE.1], .ok
          { guaranteed := rootContainer,
            burstable := tierContainerName rootContainer .burstable,
            bestEffort := tierContainerName rootContainer .bestEffort })

/-- An admission plugin, as the initializer sees it: three capability flags
(whether the plugin satisfies `WantsInternalClientSet`, `WantsInformerFactory`,
`WantsAuthorizer` — in Go, whether the type assertion succeeds) and the
dependency each setter last received.  `C`, `I`, `A` are the dependency types
(internal client set, shared informer factory, authorizer). -/
structure AdmissionPlugin (C I A : Type) where
  wantsInternalClientSet : Bool
  wantsInformerFactory : Bool
  wantsAuthorizer : Bool
  internalClientSet : Option C := none
  informerFactory : Option I := none
  authorizer : Option A := none

/-- `SetInternalClientSet` on a plugin satisfying `WantsInternalClientSet`. -/
def AdmissionPlugin.SetInternalClientSet (p : AdmissionPlugin C I A) (c : C) :
    AdmissionPlugin C I A :=
  { p with internalClientSet := some c }

/-- `SetInformerFactory` on a plugin satisfying `WantsInformerFactory`. -/
def AdmissionPlugin.SetInformerFactory (p : AdmissionPlugin C I A) (f : I) :
    AdmissionPlugin C I A :=
  { p with informerFactory := some f }

/-- `SetAuthorizer` on a plugin satisfying `WantsAuthorizer`. -/
def AdmissionPlugin.SetAuthorizer (p : AdmissionPlugin C I A) (az : A) :
    AdmissionPlugin C I A :=
  { p with authorizer := some az }

/-- `pluginInitializer`: holds the three shared dependencies it was
constructed with. -/
structure pluginInitializer (C I A : Type) where
  internalClient : C
  informers : I
  authorizer : A

/-- `NewPluginInitializer`: constructs a `pluginInitializer` from the three
dependencies. -/
def NewPluginInitializer (internalClient : C) (sharedInformers : I) (authz : A) :
    pluginInitializer C I A :=
  { internalClient := internalClient, informers := sharedInformers, authorizer := authz }

/-- `pluginInitializer.Initialize`: checks each capability interface in turn
and invokes the corresponding setter with the stored dependency. -/
def pluginInitializer.Initialize (i : pluginInitializer C I A)
    (plugin : AdmissionPlugin C I A) : AdmissionPlugin C I A :=
  let plugin :=
    if plugin.wantsInternalClientSet then plugin.SetInternalClientSet i.internalClient
    else plugin
  let plugin :=
    if plugin.wantsInformerFactory then plugin.SetInformerFactory i.informers
    else plugin
  if plugin.wantsAuthorizer then plugin.SetAuthorizer i.authorizer
  else plugin

theorem setCPUCgroupConfig_spec (conv : Int → Int) (pods : List Pod) (configs : QOSConfigs)
    (hdet : ∀ pod ∈ pods, pod.qosClass = .burstable → pod.requests.isSome) :
    ∃ out, setCPUCgroupConfig conv pods configs = .ok out ∧
      out.bestEffort.resourceParameters.cpuShares = some MinShares ∧
      out.burstable.resourceParameters.cpuShares =
        some (max MinShares (conv (burstableCPURequestSum pods))) := by
  unfold setCPUCgroupConfig
  rw [sumBurstableCPURequests_eq pods 0 hdet, zero_add]
  refine ⟨_, rfl, ?_, ?_⟩
  · simp [QOSConfigs.set, QOSConfigs.get, CgroupConfig.withCpuShares]
  · simp only [QOSConfigs.set, QOSConfigs.get, CgroupConfig.withCpuShares]
    by_cases h : conv (burstableCPURequestSum pods) < MinShares
    · rw [if_pos h, max_eq_left (le_of_lt h)]
    · rw [if_neg h, max_eq_right (not_lt.mp h)]

/-- `startTier` in terms of the exists-check, the per-tier driver call, its
success and the per-tier error. -/
def startTierOp (d : StartDriver) (rootContainer : String) (q : ManagedQOS) : DriverOp :=
  if d.existsCgroup (tierContainerName rootContainer q) then
    .update (tierStartConfig rootContainer q)
  else
    .create (tierStartConfig rootContainer q)

/-- Whether the driver call `Start` makes for tier `q` succeeds. -/
def startTierOk (d : StartDriver) (rootContainer : String) (q : ManagedQOS) : Bool :=
  if d.existsCgroup (tierContainerName rootContainer q) then
    d.update (tierStartConfig rootContainer q)
  else
    d.create (tierStartConfig rootContainer q)

/-- The error `Start` reports when the tier-`q` driver call fails. -/
def startTierErr (d : StartDriver) (rootContainer : String) (q : ManagedQOS) : StartError :=
  if d.existsCgroup (tierContainerName rootContainer q) then .updateFailed q
  else .createFailed q

theorem startTier_eq (d : StartDriver) (rootContainer : String) (q : ManagedQOS) :
    startTier d (tierStartConfig rootContainer q) q =
      (startTierOp d rootContainer q,
        if startTierOk d rootContainer q then none else some (startTierErr d rootContainer q)) := by
  unfold startTier startTierOp startTierOk startTierErr
  have hname : (tierStartConfig rootContainer q).name = tierContainerName rootContainer q := by
    cases q <;> rfl
  rw [hname]
  by_cases hex : d.existsCgroup (tierContainerName rootContainer q) <;> simp [hex]

/-- C1: when memory reservation runs to completion (every active
non-BestEffort pod's requests are determinable and node-allocatable memory
`A` is present and nonzero), `setMemoryReserve` sets the Burstable memory
limit to exactly `A - G*P/100` and the BestEffort memory limit to exactly
`(A - G*P/100) - B*P/100`, where `G` and `B` are the Guaranteed and Burstable
memory-request sums, `P` the configured percentage, and the division is
integer division truncating toward zero. -/
theorem qosC1_memory_reserve_limits (pods : List Pod) (configs : QOSConfigs)
    (allocatable percentReserve : Int)
    (hdet : ∀ pod ∈ pods, pod.qosClass ≠ .bestEffort → pod.requests.isSome)
    (hA : allocatable ≠ 0) :
    (setMemoryReserve pods (some allocatable) configs percentReserve).burstable.resourceParameters.memory =
      some (allocatable -
        Int.tdiv (classMemoryRequestSum .guaranteed pods * percentReserve) 100) ∧
    (setMemoryReserve pods (some allocatable) configs percentReserve).bestEffort.resourceParameters.memory =
      some ((allocatable -
          Int.tdiv (classMemoryRequestSum .guaranteed pods * percentReserve) 100) -
        Int.tdiv (classMemoryRequestSum .burstable pods * percentReserve) 100) := by
  unfold setMemoryReserve
  rw [sumQOSMemoryRequests_eq pods 0 0 hdet]
  simp [hA, QOSConfigs.set, QOSConfigs.get, CgroupConfig.withMemory,
    burstableMemoryLimit, bestEffortMemoryLimit]

/-- Witness for C1: one Guaranteed pod requesting 1 GiB, allocatable 10 GiB,
percentage 50 (the spec's end-to-end scenario B). -/
theorem qosC1_memory_reserve_limits_witness :
    (setMemoryReserve
        [{ qosClass := .guaranteed, requests := some { cpuMilli := none, memory := some 1073741824 } }]
        (some 10737418240)
        { burstable := { name := "kubepods/Burstable", resourceParameters := {} },
          bestEffort := { name := "kubepods/BestEffort", resourceParameters := {} } }
        50).burstable.resourceParameters.memory =
      some (10737418240 -
        Int.tdiv (classMemoryRequestSum .guaranteed
          [{ qosClass := .guaranteed, requests := some { cpuMilli := none, memory := some 1073741824 } }] * 50) 100) ∧
    (setMemoryReserve
        [{ qosClass := .guaranteed, requests := some { cpuMilli := none, memory := some 1073741824 } }]
        (some 10737418240)
        { burstable := { name := "kubepods/Burstable", resourceParameters := {} },
          bestEffort := { name := "kubepods/BestEffort", resourceParameters := {} } }
        50).bestEffort.resourceParameters.memory =
      some ((10737418240 -
          Int.tdiv (classMemoryRequestSum .guaranteed
            [{ qosClass := .guaranteed, requests := some { cpuMilli := none, memory := some 1073741824 } }] * 50) 100) -
        Int.tdiv (classMemoryRequestSum .burstable
          [{ qosClass := .guaranteed, requests := some { cpuMilli := none, memory := some 1073741824 } }] * 50) 100) :=
  qosC1_memory_reserve_limits _ _ _ _ (by decide) (by decide)

/-- C3: `setCPUCgroupConfig` sets the BestEffort CPU shares to exactly
`MinShares`, and the Burstable CPU shares to `max MinShares (conv S)` where
`S` is the sum of the CPU milli-requests of exactly the Burstable pods and
`conv` the milli-CPU-to-shares conversion. -/
theorem qosC3_cpu_shares (conv : Int → Int) (pods : List Pod) (configs : QOSConfigs)
    (hdet : ∀ pod ∈ pods, pod.qosClass = .burstable → pod.requests.isSome) :
    ∃ out, setCPUCgroupConfig conv pods configs = .ok out ∧
      out.bestEffort.resourceParameters.cpuShares = some MinShares ∧
      out.burstable.resourceParameters.cpuShares =
        some (max MinShares (conv (burstableCPURequestSum pods))) :=
  setCPUCgroupConfig_spec conv pods configs hdet

/-- Witness for C3: a Guaranteed and a Burstable pod, identity conversion. -/
theorem qosC3_cpu_shares_witness :
    ∃ out,
      setCPUCgroupConfig (fun s => s)
          [{ qosClass := .guaranteed, requests := some { cpuMilli := some 9000, memory := none } },
           { qosClass := .burstable, requests := some { cpuMilli := some 3000, memory := none } }]
          { burstable := { name := "b", resourceParameters := {} },
            bestEffort := { name := "e", resourceParameters := {} } } = .ok out ∧
      out.bestEffort.resourceParameters.cpuShares = some MinShares ∧
      out.burstable.resourceParameters.cpuShares =
        some (max MinShares ((fun s => s) (burstableCPURequestSum
          [{ qosClass := .guaranteed, requests := some { cpuMilli := some 9000, memory := none } },
           { qosClass := .burstable, requests := some { cpuMilli := some 3000, memory := none } }]))) :=
  qosC3_cpu_shares _ _ _ (by decide)

/-- C7: for `G, B ≥ 0` and `P` in `[0, 100]`, the computed limits satisfy
BestEffort limit ≤ Burstable limit ≤ allocatable, under the truncating
integer division. -/
theorem qosC7_limit_ordering (A G B P : Int) (hG : 0 ≤ G) (hB : 0 ≤ B)
    (hP0 : 0 ≤ P) (hP100 : P ≤ 100) :
    bestEffortMemoryLimit A G B P ≤ burstableMemoryLimit A G P ∧
      burstableMemoryLimit A G P ≤ A := by
  have h1 : 0 ≤ Int.tdiv (G * P) 100 := Int.tdiv_nonneg (mul_nonneg hG hP0) (by norm_num)
  have h2 : 0 ≤ Int.tdiv (B * P) 100 := Int.tdiv_nonneg (mul_nonneg hB hP0) (by norm_num)
  unfold bestEffortMemoryLimit burstableMemoryLimit
  constructor <;> linarith

/-- Witness for C7 at `A = 10 GiB`, `G = 3`, `B = 7`, `P = 33`. -/
theorem qosC7_limit_ordering_witness :
    bestEffortMemoryLimit 10737418240 3 7 33 ≤ burstableMemoryLimit 10737418240 3 33 ∧
      burstableMemoryLimit 10737418240 3 33 ≤ 10737418240 :=
  qosC7_limit_ordering _ _ _ _ (by decide) (by decide) (by decide) (by decide)

/-- C2: for a tier whose config carries a memory target entering phase 2,
when the usage read back from the cgroup driver is at most the target the
phase-2 adjustment leaves the tier's config unchanged, and when the usage
strictly exceeds the target it replaces the target with exactly the observed
usage. -/
theorem qosC2_retry_adjustment (memoryUsage : String → Option Int)
    (configs : QOSConfigs) (order : List ManagedQOS) (percentReserve : Int)
    (q : ManagedQOS) (target usage : Int)
    (hnodup : order.Nodup) (hq : q ∈ order)
    (hall : ∀ u ∈ order, (memoryUsage (configs.get u).name).isSome)
    (husage : memoryUsage (configs.get q).name = some usage)
    (htarget : (configs.get q).resourceParameters.memory = some target) :
    (usage ≤ target →
      (retrySetMemoryReserve memoryUsage configs order percentReserve).get q =
        configs.get q) ∧
    (target < usage →
      ((retrySetMemoryReserve memoryUsage configs order percentReserve).get q).resourceParameters.memory =
        some usage) := by
  have h := retrySetMemoryReserve_get_mem memoryUsage percentReserve order configs q usage
    hnodup hq hall husage
  constructor
  · intro hle
    rw [h]
    unfold adjustMemoryToUsage
    rw [htarget]
    simp [not_lt.mpr hle]
  · intro hlt
    rw [h]
    unfold adjustMemoryToUsage
    rw [htarget]
    simp [hlt, CgroupConfig.withMemory]

/-- Witness for C2: two tiers with targets 100 and 700, observed usage 500
for both; the Burstable tier (usage above target) is retargeted to 500. -/
theorem qosC2_retry_adjustment_witness :
    ((500 : Int) ≤ 100 →
      (retrySetMemoryReserve (fun _ => some 500)
          { burstable := { name := "b", resourceParameters := { memory := some 100 } },
            bestEffort := { name := "e", resourceParameters := { memory := some 700 } } }
          [.burstable, .bestEffort] 50).get .burstable =
        ({ burstable := { name := "b", resourceParameters := { memory := some 100 } },
           bestEffort := { name := "e", resourceParameters := { memory := some 700 } } } : QOSConfigs).get .burstable) ∧
    ((100 : Int) < 500 →
      ((retrySetMemoryReserve (fun _ => some 500)
          { burstable := { name := "b", resourceParameters := { memory := some 100 } },
            bestEffort := { name := "e", resourceParameters := { memory := some 700 } } }
          [.burstable, .bestEffort] 50).get .burstable).resourceParameters.memory =
        some 500) :=
  qosC2_retry_adjustment _ _ _ _ .burstable 100 500
    (by decide) (by decide) (by intro u _; rfl) rfl rfl

/-- C10: when the phase-2 stats read fails at tier `q` after succeeding on
the tiers of `pre`, `retrySetMemoryReserve` returns immediately: the failed
tier and every tier not yet visited keep their phase-1 configs (the stats
error is not surfaced — the function has no error channel, and
`UpdateCgroups` goes on to re-apply the returned configs). -/
theorem qosC10_retry_stats_error (memoryUsage : String → Option Int)
    (percentReserve : Int) (configs : QOSConfigs)
    (pre post : List ManagedQOS) (q u : ManagedQOS)
    (hpre : ∀ v ∈ pre, (memoryUsage (configs.get v).name).isSome)
    (hq : memoryUsage (configs.get q).name = none)
    (hu : u ∉ pre) :
    (retrySetMemoryReserve memoryUsage configs (pre ++ q :: post) percentReserve).get u =
      configs.get u :=
  retrySetMemoryReserve_early_return memoryUsage percentReserve pre configs q post u hpre hq hu

/-- Witness for C10: the stats read succeeds for BestEffort and fails for
Burstable; the Burstable tier keeps its phase-1 target. -/
theorem qosC10_retry_stats_error_witness :
    (retrySetMemoryReserve (fun n => if n = "e" then some 900 else none)
        { burstable := { name := "b", resourceParameters := { memory := some 100 } },
          bestEffort := { name := "e", resourceParameters := { memory := some 700 } } }
        ([.bestEffort] ++ .burstable :: []) 50).get .burstable =
      ({ burstable := { name := "b", resourceParameters := { memory := some 100 } },
         bestEffort := { name := "e", resourceParameters := { memory := some 700 } } } : QOSConfigs).get .burstable :=
  qosC10_retry_stats_error _ 50 _ [.bestEffort] [] .burstable .burstable
    (by decide) (by decide) (by decide)

/-- C4 counterexample: a pass in which a Burstable pod's resource quantities
cannot be determined, with memory in the reserved-resource map, allocatable
memory present and the driver accepting every write.  The pass aborts whole
with the CPU-computation error and attempts no cgroup write: contrary to the
claim, the memory reservation computation does not run during that pass. -/
theorem qosC4_counterexample :
    UpdateCgroups
        { pods := [{ qosClass := .burstable, requests := none }],
          allocatableMemory := some 1000,
          qosReservedMemory := some 50,
          burstableName := "b", bestEffortName := "e" }
        { update := fun _ => true, memoryUsage := fun _ => some 0 }
        (fun s => s) [.burstable, .bestEffort] =
      ([], .error .cpuComputation) := rfl

/-- C4 as amended: a pass in which some Burstable pod's resource quantities
cannot be determined aborts entirely with the CPU-computation error — the
memory reservation computation does not run and no cgroup update is
attempted that pass (previous cgroup values remain in effect). -/
theorem qosC4_cpu_error_aborts_pass (st : ManagerState) (d : CgroupDriver)
    (conv : Int → Int) (order : List ManagedQOS)
    (h : ∃ pod ∈ st.pods, pod.qosClass = .burstable ∧ pod.requests = none) :
    UpdateCgroups st d conv order = ([], .error .cpuComputation) := by
  have herr := sumBurstableCPURequests_error st.pods 0 h
  unfold UpdateCgroups setCPUCgroupConfig
  rw [herr]

/-- Witness for the amended C4: two pods, the second Burstable with
undeterminable requests, memory reservation configured at 40%. -/
theorem qosC4_cpu_error_aborts_pass_witness :
    UpdateCgroups
        { pods := [{ qosClass := .guaranteed, requests := some { cpuMilli := some 100, memory := some 7 } },
                   { qosClass := .burstable, requests := none }],
          allocatableMemory := some 4096,
          qosReservedMemory := some 40,
          burstableName := "kubepods/Burstable", bestEffortName := "kubepods/BestEffort" }
        { update := fun _ => false, memoryUsage := fun _ => none }
        (fun s => Int.tdiv (s * 1024) 1000) [.bestEffort, .burstable] =
      ([], .error .cpuComputation) :=
  qosC4_cpu_error_aborts_pass _ _ _ _
    ⟨{ qosClass := .burstable, requests := none }, by decide, rfl, rfl⟩

/-- C5: when node-allocatable memory is absent from the resource list or
reported as zero, `setMemoryReserve` leaves the configs untouched (every
tier's memory field stays `nil`), and the pass does not surface this
condition as an error: with the CPU computation succeeding and the driver
accepting the writes, `UpdateCgroups` returns no error. -/
theorem qosC5_missing_allocatable (pods : List Pod) (configs : QOSConfigs)
    (allocatableMemory : Option Int) (percentReserve : Int)
    (halloc : allocatableMemory = none ∨ allocatableMemory = some 0) :
    setMemoryReserve pods allocatableMemory configs percentReserve = configs ∧
    (∀ (st : ManagerState) (d : CgroupDriver) (conv : Int → Int) (order : List ManagedQOS),
      st.allocatableMemory = allocatableMemory →
      (∀ pod ∈ st.pods, pod.qosClass = .burstable → pod.requests.isSome) →
      (∀ c, d.update c = true) →
      (UpdateCgroups st d conv order).2 = .ok ()) := by
  constructor
  · rcases halloc with h | h <;> subst h <;>
      unfold setMemoryReserve <;>
      rcases hs : sumQOSMemoryRequests pods 0 0 with _ | ⟨g, b⟩ <;> simp [hs]
  · intro st d conv order _ hdet hupd
    obtain ⟨out, hout, -, -⟩ := setCPUCgroupConfig_spec conv st.pods (initialQOSConfigs st) hdet
    have hall : ∀ l : List CgroupConfig, (l.map d.update).all id = true := by
      intro l
      rw [List.all_eq_true]
      intro b hb
      rcases List.mem_map.mp hb with ⟨c, -, hc⟩
      rw [← hc, hupd c]
      rfl
    simp only [UpdateCgroups, hout, hall]
    simp

/-- Witness for C5 at zero reported allocatable memory. -/
theorem qosC5_missing_allocatable_witness :
    (setMemoryReserve
        [{ qosClass := .guaranteed, requests := some { cpuMilli := none, memory := some 64 } }]
        (some 0)
        { burstable := { name := "b", resourceParameters := {} },
          bestEffort := { name := "e", resourceParameters := {} } } 25 =
      { burstable := { name := "b", resourceParameters := {} },
        bestEffort := { name := "e", resourceParameters := {} } }) ∧
    (∀ (st : ManagerState) (d : CgroupDriver) (conv : Int → Int) (order : List ManagedQOS),
      st.allocatableMemory = some 0 →
      (∀ pod ∈ st.pods, pod.qosClass = .burstable → pod.requests.isSome) →
      (∀ c, d.update c = true) →
      (UpdateCgroups st d conv order).2 = .ok ()) :=
  qosC5_missing_allocatable _ _ _ _ (Or.inr rfl)

/-- C6: `Start` errors when the root cgroup does not exist; otherwise, for
each of the Burstable and BestEffort tiers it creates the child cgroup with
its baseline config when the path does not exist and updates it to that same
baseline config when it does (the BestEffort baseline pins CPU shares to
`MinShares`, the Burstable baseline is empty), stopping at and propagating
the first create/update failure, and on success populates the tier-path
record. -/
theorem qosC6_start (d : StartDriver) (rootContainer : String) :
    (d.existsCgroup rootContainer = false →
      Start d rootContainer = ([], .error .rootDoesNotExist)) ∧
    (d.existsCgroup rootContainer = true →
      (tierStartConfig rootContainer .bestEffort).resourceParameters.cpuShares = some MinShares ∧
      (tierStartConfig rootContainer .burstable).resourceParameters = {} ∧
      (startTierOk d rootContainer .burstable = false →
        Start d rootContainer =
          ([startTierOp d rootContainer .burstable],
            .error (startTierErr d rootContainer .burstable))) ∧
      (startTierOk d rootContainer .burstable = true →
        startTierOk d rootContainer .bestEffort = false →
        Start d rootContainer =
          ([startTierOp d rootContainer .burstable, startTierOp d rootContainer .bestEffort],
            .error (startTierErr d rootContainer .bestEffort))) ∧
      (startTierOk d rootContainer .burstable = true →
        startTierOk d rootContainer .bestEffort = true →
        Start d rootContainer =
          ([startTierOp d rootContainer .burstable, startTierOp d rootContainer .bestEffort],
            .ok { guaranteed := rootContainer,
                  burstable := tierContainerName rootContainer .burstable,
                  bestEffort := tierContainerName rootContainer .bestEffort }))) := by
  constructor
  · intro hroot
    unfold Start
    simp [hroot]
  · intro hroot
    refine ⟨rfl, rfl, ?_, ?_, ?_⟩
    · intro hb
      unfold Start
      simp [hroot, startTier_eq, hb]
    · intro hb he
      unfold Start
      simp [hroot, startTier_eq, hb, he]
    · intro hb he
      unfold Start
      simp [hroot, startTier_eq, hb, he]

/-- C9: for each of the three dependency capabilities, `Initialize` invokes
the corresponding setter on the plugin exactly when the plugin satisfies
that capability, passing the dependency `NewPluginInitializer` was
constructed with; a plugin satisfying none of the capability interfaces is
left untouched. -/
theorem qosC9_capability_dispatch (C I A : Type) (c : C) (inf : I) (az : A)
    (plugin : AdmissionPlugin C I A) :
    ((NewPluginInitializer c inf az).Initialize plugin).internalClientSet =
      (if plugin.wantsInternalClientSet then some c else plugin.internalClientSet) ∧
    ((NewPluginInitializer c inf az).Initialize plugin).informerFactory =
      (if plugin.wantsInformerFactory then some inf else plugin.informerFactory) ∧
    ((NewPluginInitializer c inf az).Initialize plugin).authorizer =
      (if plugin.wantsAuthorizer then some az else plugin.authorizer) ∧
    (plugin.wantsInternalClientSet = false → plugin.wantsInformerFactory = false →
      plugin.wantsAuthorizer = false →
      (NewPluginInitializer c inf az).Initialize plugin = plugin) := by
  unfold NewPluginInitializer pluginInitializer.Initialize
    AdmissionPlugin.SetInternalClientSet AdmissionPlugin.SetInformerFactory
    AdmissionPlugin.SetAuthorizer
  cases h1 : plugin.wantsInternalClientSet <;>
    cases h2 : plugin.wantsInformerFactory <;>
      cases h3 : plugin.wantsAuthorizer <;>
        simp [h1, h2, h3]
